import Mathlib

/-!
Shallow embedding of the blend-planning core of `src/backend/app.py`
(a Flask app managing wine tanks and computing transfer plans).

Modelling conventions:
* Python floats are modelled as exact rationals (`ℚ`); the epsilon constants
  of the source (`1e-3`, `1e-6`) appear literally as `1/1000`, `1/1000000`.
* A Python tank dict is the structure `Tank`.  The `blend_breakdown` key is
  optional in the source (tanks created by `add_tank`/`upload_csv` lack it;
  `initialize_blend_breakdown` adds it), so it is an `Option`: `none` models
  a missing key, `some []` an empty dict.  Reading a missing key with
  `d['blend_breakdown']` raises `KeyError` in Python; the embedding makes the
  corresponding crash explicit where it matters (`apply_transfer`).
* Python dicts keyed by blend name are association lists `List (String × ℚ)`
  preserving insertion order (Python 3.7+ dict order); keys are unique at
  every call site, mirroring dict semantics.
* In-place mutation of tanks shared between Python lists is modelled by
  carrying one `List Tank` state and addressing tanks by name (names are
  unique in every input considered, as the app enforces on tank creation).
* `random.shuffle` / `random.sample` are modelled by an explicit oracle
  (`RandOracle`); theorems either quantify over it or fix a concrete one.
-/

structure Tank where
  name : String
  blend : String
  is_empty : Bool
  current_volume : ℚ
  capacity : ℚ
  blend_breakdown : Option (List (String × ℚ))
deriving DecidableEq, Repr

def defaultTank : Tank :=
  { name := "", blend := "", is_empty := true, current_volume := 0,
    capacity := 0, blend_breakdown := none }

instance : Inhabited Tank := ⟨defaultTank⟩

/-- A transfer operation (a dict in the plan lists of the source).  The
different producers populate different keys: `double_swap` moves carry a
`blend_breakdown`; consolidation steps carry `blend` and `mtype`
(Python key `type`); trial fill moves carry `blend`.  Unused keys are
modelled by their defaults. -/
structure Move where
  src : String
  dst : String
  volume : ℚ
  blend_breakdown : List (String × ℚ)
  blend : String
  mtype : String
deriving DecidableEq, Repr

/-- `normalize_blend` (app.py line 20): `blend.lower().strip() if blend else ''`.
Lowercasing and whitespace-stripping are implemented on the character list
(equivalent to `String.toLower`/`String.trim`, whose byte-index recursions do
not reduce in the kernel). -/
def normalize_blend (blend : String) : String :=
  if blend = "" then ""
  else
    let lowered := blend.data.map Char.toLower
    String.mk (((lowered.dropWhile Char.isWhitespace).reverse.dropWhile Char.isWhitespace).reverse)

/-- Dict read with default 0: `d.get(k, 0)`. -/
def bdLookup (bd : List (String × ℚ)) (k : String) : ℚ :=
  match bd.find? (fun p => decide (p.1 = k)) with
  | some p => p.2
  | none => 0

/-- Dict update `d[k] = d.get(k, 0) + v`: updates the entry in place when the
key exists, appends it otherwise (Python dict insertion order). -/
def bdAdd (bd : List (String × ℚ)) (k : String) (v : ℚ) : List (String × ℚ) :=
  if bd.any (fun p => decide (p.1 = k)) then
    bd.map (fun p => if p.1 = k then (p.1, p.2 + v) else p)
  else bd ++ [(k, v)]

/-- The per-key subtract-then-delete pattern of `apply_transfer`
(app.py lines 190-193): `d[k] = d.get(k, 0) - v` followed by
`if d[k] <= 0: del d[k]`. -/
def bdSubDel (bd : List (String × ℚ)) (k : String) (v : ℚ) : List (String × ℚ) :=
  (bdAdd bd k (-v)).filter (fun p => decide (p.1 ≠ k) || decide (0 < p.2))

/-- Index of the first tank satisfying `p` (Python
`next(t for t in tanks if ...)` combined with in-place mutation sites). -/
def firstIdx (p : Tank → Bool) : List Tank → Option Nat
  | [] => none
  | t :: ts => if p t then some 0 else (firstIdx p ts).map (· + 1)

/-- Stable insertion for an ascending sort by a rational key. -/
def insertAscBy (key : Tank → ℚ) (x : Tank) : List Tank → List Tank
  | [] => [x]
  | y :: ys => if key x ≤ key y then x :: y :: ys else y :: insertAscBy key x ys

/-- Stable ascending sort by key: models Python `sorted(l, key=...)`. -/
def sortAscBy (key : Tank → ℚ) (l : List Tank) : List Tank :=
  l.foldr (insertAscBy key) []

/-- Stable descending sort by key: models Python
`sorted(l, key=..., reverse=True)` and `sorted(l, key=lambda t: -...)`. -/
def sortDescBy (key : Tank → ℚ) (l : List Tank) : List Tank :=
  sortAscBy (fun t => -key t) l

/-- `round(x, 4)` of the source, on rationals.  (Python rounds half to even;
the half-to-even/half-up difference is immaterial to every value arising in
the claims, all of which are exact at 4 decimals.) -/
def round4 (q : ℚ) : ℚ := ((round (q * 10000) : ℤ) : ℚ) / 10000

/-! ## Composition transfer primitive (`transfer_wine`, app.py lines 51-74) -/

/-- The donor breakdown actually used: `donor.get("blend_breakdown", {})`,
falling back to `{donor.get("blend", "Unknown"): donor_vol}` when missing or
empty.  (Every tank dict in the app carries a `blend` key, so the fallback
label is always the donor's `blend` value.) -/
def effectiveBreakdown (donor : Tank) : List (String × ℚ) :=
  if donor.blend_breakdown.getD [] = [] then
    [(donor.blend, donor.current_volume)]
  else donor.blend_breakdown.getD []

/-- The proportional factor `volume / donor_vol if donor_vol > 0 else 0`. -/
def transferFrac (donor : Tank) (volume : ℚ) : ℚ :=
  if 0 < donor.current_volume then volume / donor.current_volume else 0

/-- The per-blend amounts moved: `amt * (volume / donor_vol) if donor_vol > 0 else 0`
for each entry of the donor's effective breakdown (app.py lines 59-62). -/
def transferBreakdown (donor : Tank) (volume : ℚ) : List (String × ℚ) :=
  (effectiveBreakdown donor).map (fun p => (p.1, p.2 * transferFrac donor volume))

/-- `transfer_wine(donor, recipient, volume)` for two distinct tank objects:
returns the updated (donor, recipient) pair.  The donor's breakdown is reduced
pointwise (the transfer breakdown has exactly the donor's keys) and entries
with value ≤ 1e-3 are dropped; the recipient's breakdown is increased via the
dict-update pattern.  Volumes are updated unconditionally at the end. -/
def transfer_wine (donor recipient : Tank) (volume : ℚ) : Tank × Tank :=
  let donor_vol := donor.current_volume
  let tb := transferBreakdown donor volume
  let recipient_breakdown := tb.foldl (fun acc p => bdAdd acc p.1 p.2) (recipient.blend_breakdown.getD [])
  let donor_bd := ((effectiveBreakdown donor).map
      (fun p => (p.1, p.2 - p.2 * transferFrac donor volume))).filter
      (fun p => decide (1/1000 < p.2))
  ({donor with current_volume := donor_vol - volume, blend_breakdown := some donor_bd},
   {recipient with current_volume := recipient.current_volume + volume, blend_breakdown := some recipient_breakdown})

/-- `transfer_wine(t, t, volume)` when donor and recipient are the same Python
object (reachable through the trial fill loop).  Tracing the source with
aliasing: the volume reads happen before the writes, so the final volume is
`recipient_vol + volume` (the `+=`-style write at line 74 overwrites the
subtraction at line 73); when the tank's breakdown is non-empty the add loop
and the subtract loop act on the same dict and cancel exactly, leaving the
original values filtered at 1e-3; when it is empty/missing the donor-side
fallback dict is a fresh object, and the final assignment at line 71 leaves
the filtered fallback remainder. -/
def transfer_wine_self (t : Tank) (volume : ℚ) : Tank :=
  if t.blend_breakdown.getD [] = [] then
    {t with current_volume := t.current_volume + volume,
            blend_breakdown := some (((effectiveBreakdown t).map
              (fun p => (p.1, p.2 - p.2 * transferFrac t volume))).filter
              (fun p => decide (1/1000 < p.2)))}
  else
    {t with current_volume := t.current_volume + volume,
            blend_breakdown := some ((t.blend_breakdown.getD []).filter
              (fun p => decide (1/1000 < p.2)))}

/-- `transfer_wine` between two tanks addressed by name inside one shared
tank-list state (the callers hold references into one mutable list). -/
def transfer_wine_state (st : List Tank) (srcName dstName : String) (volume : ℚ) : List Tank :=
  match firstIdx (fun t => decide (t.name = srcName)) st,
        firstIdx (fun t => decide (t.name = dstName)) st with
  | some i, some j =>
    if i = j then st.set i (transfer_wine_self (st.getD i defaultTank) volume)
    else
      let pr := transfer_wine (st.getD i defaultTank) (st.getD j defaultTank) volume
      (st.set i pr.1).set j pr.2
  | _, _ => st

/-! ## Acceptance check (`blending_is_not_needed`, app.py lines 76-97) -/

/-- The per-tank body of the acceptance loop: skip when the breakdown sums to
zero, otherwise require every target component within tolerance and every
rogue component (present in the tank, absent from the targets) at or below
the tolerance share. -/
def tank_matches_blend (t : Tank) (gbp : List (String × ℚ)) (tolerance : ℚ) : Bool :=
  let breakdown := t.blend_breakdown.getD []
  let total := (breakdown.map (fun p => p.2)).sum
  if total = 0 then true
  else
    (gbp.all (fun bp =>
      let tank_amt := bdLookup breakdown bp.1
      let tank_pct := if 0 < total then tank_amt / total * 100 else 0
      decide (|tank_pct - bp.2| ≤ tolerance))) &&
    (breakdown.all (fun p =>
      if gbp.any (fun bp => decide (bp.1 = p.1)) then true
      else decide (p.2 / total * 100 ≤ tolerance)))

/-- `blending_is_not_needed(working_tanks, global_blend_percentages, tolerance)`:
returns `True` immediately when exactly one tank holds wine; otherwise every
tank with wine must pass `tank_matches_blend`. -/
def blending_is_not_needed (working_tanks : List Tank) (gbp : List (String × ℚ)) (tolerance : ℚ) : Bool :=
  let tanks_with_wine := working_tanks.filter (fun t => decide (0 < t.current_volume))
  if tanks_with_wine.length = 1 then true
  else tanks_with_wine.all (fun t => tank_matches_blend t gbp tolerance)

/-! ## Cross-fill (`double_swap`, app.py lines 102-148) -/

/-- `double_swap(tank_a, tank_b, tank_empty)`: three moves — half of A to the
empty tank, half of B to the empty tank, the remainder of A to B; pure, the
tanks are not updated.  (`tank_a['blend_breakdown']` is a raising access in
Python; every call site passes tanks whose breakdown has been initialised,
hence `getD []`.  A zero `current_volume` would raise `ZeroDivisionError`;
call sites pass tanks with positive volume.) -/
def double_swap (tank_a tank_b tank_empty : Tank) : List Move :=
  let va := tank_a.current_volume
  let vb := tank_b.current_volume
  let move_a_to_e := va / 2
  let move_b_to_e := vb / 2
  let move_a_to_b := va - move_a_to_e
  [ { src := tank_a.name, dst := tank_empty.name, volume := move_a_to_e,
      blend_breakdown := (tank_a.blend_breakdown.getD []).map (fun p => (p.1, p.2 * (move_a_to_e / va))),
      blend := "", mtype := "" },
    { src := tank_b.name, dst := tank_empty.name, volume := move_b_to_e,
      blend_breakdown := (tank_b.blend_breakdown.getD []).map (fun p => (p.1, p.2 * (move_b_to_e / vb))),
      blend := "", mtype := "" },
    { src := tank_a.name, dst := tank_b.name, volume := move_a_to_b,
      blend_breakdown := (tank_a.blend_breakdown.getD []).map (fun p => (p.1, p.2 * ((va - move_a_to_e) / va))),
      blend := "", mtype := "" } ]

/-! ## Applying a move (`apply_transfer`, app.py lines 168-198) -/

/-- `apply_transfer(tanks, move)`: clamps the requested volume to
`min(move.volume, source volume, destination headroom)`, scales the move's
breakdown proportionally when clamped, then mutates source and destination in
place.  Returns the (possibly partially) updated list and `true` on normal
completion, `false` when Python raises: `StopIteration` when a named tank is
missing (no mutation yet), or `KeyError` when a tank lacks the
`blend_breakdown` key and the scaled breakdown is non-empty (the source's
volume subtraction at line 188 — and by then the destination's addition at
line 196 — has already happened). -/
def apply_transfer (tanks : List Tank) (move : Move) : List Tank × Bool :=
  match firstIdx (fun t => decide (t.name = move.src)) tanks,
        firstIdx (fun t => decide (t.name = move.dst)) tanks with
  | some i, some j =>
    let tank_from := tanks.getD i defaultTank
    let tank_to := tanks.getD j defaultTank
    let max_from := tank_from.current_volume
    let max_to := tank_to.capacity - tank_to.current_volume
    let amount := min (min move.volume max_from) max_to
    if amount ≤ 0 then (tanks, true)
    else
      let bb := if amount ≠ move.volume then
          move.blend_breakdown.map (fun p => (p.1, p.2 * (amount / move.volume)))
        else move.blend_breakdown
      if i = j then
        -- source and destination are the same Python dict: the two volume
        -- writes cancel, the breakdown is subtracted then re-added
        match tank_from.blend_breakdown, bb with
        | none, _ :: _ =>
          (tanks.set i {tank_from with current_volume := tank_from.current_volume - amount}, false)
        | fromBd, _ =>
          if bb = [] then (tanks, true)
          else
            let bd1 := bb.foldl (fun acc p => bdSubDel acc p.1 p.2) (fromBd.getD [])
            let bd2 := bb.foldl (fun acc p => bdAdd acc p.1 p.2) bd1
            (tanks.set i {tank_from with blend_breakdown := some bd2}, true)
      else
        match tank_from.blend_breakdown, bb with
        | none, _ :: _ =>
          (tanks.set i {tank_from with current_volume := tank_from.current_volume - amount}, false)
        | fromBd, _ =>
          let from2 := {tank_from with
            current_volume := tank_from.current_volume - amount,
            blend_breakdown := if bb = [] then fromBd
              else some (bb.foldl (fun acc p => bdSubDel acc p.1 p.2) (fromBd.getD []))}
          match tank_to.blend_breakdown, bb with
          | none, _ :: _ =>
            ((tanks.set i from2).set j
              {tank_to with current_volume := tank_to.current_volume + amount}, false)
          | toBd, _ =>
            let to2 := {tank_to with
              current_volume := tank_to.current_volume + amount,
              blend_breakdown := if bb = [] then toBd
                else some (bb.foldl (fun acc p => bdAdd acc p.1 p.2) (toBd.getD []))}
            ((tanks.set i from2).set j to2, true)
  | _, _ => (tanks, false)

/-! ## Feasibility checker (`can_make_blend`, app.py lines 318-330) -/

/-- `can_make_blend(target_ratios, source_tanks, target_tanks)`: fails when the
total source volume is below the total target capacity, or when for some
component `available + 1e-3 < (pct/100) * total_required`.  (Defined in the
source but — as the theorems below establish — never invoked by
`generate_blend_plan`.) -/
def can_make_blend (target_ratios : List (String × ℚ)) (source_tanks target_tanks : List Tank) : Bool :=
  let total_required := (target_tanks.map (fun t => t.capacity)).sum
  let total_available := (source_tanks.map (fun t => t.current_volume)).sum
  if total_available < total_required then false
  else
    target_ratios.all (fun bp =>
      let required := bp.2 / 100 * total_required
      let available := ((source_tanks.filter
          (fun t => decide (normalize_blend t.blend = bp.1))).map (fun t => t.current_volume)).sum
      !(decide (available + 1/1000 < required)))

/-! ## Breakdown initialisation (`initialize_blend_breakdown`, app.py lines 42-49) -/

/-- Python `initialize_blend_breakdown`: for each tank whose breakdown is
missing or empty, set `{blend: current_volume}` when the tank has a truthy
blend label and positive volume, else the empty dict.  (The trial loop at
app.py lines 516-521 inlines the identical logic.) -/
def init_blend_breakdown (tanks : List Tank) : List Tank :=
  tanks.map (fun t =>
    if t.blend_breakdown = none ∨ t.blend_breakdown = some [] then
      if t.blend ≠ "" ∧ 0 < t.current_volume then
        {t with blend_breakdown := some [(t.blend, t.current_volume)]}
      else {t with blend_breakdown := some []}
    else t)

/-! ## Greedy consolidation (`consolidate_tanks_any_blend`, app.py lines 332-374) -/

/-- One relabel-and-transfer action of the consolidation pass
(app.py lines 357-372): promote the recipient's label to "Mixed" when it had
a different non-empty label, record a step labelled with the donor's blend
(or "Mixed" when the donor is unlabelled), and move the donor's entire
volume. -/
def consolidateApply (st : List Tank) (plan : List Move)
    (donorName : String) (donor_vol : ℚ) (donor_blend : String) (r : String) :
    List Tank × List Move :=
  let recipient := (st.find? (fun t => decide (t.name = r))).getD defaultTank
  let newBlend := if recipient.blend ≠ "" ∧ recipient.blend ≠ donor_blend then "Mixed" else donor_blend
  let blend_label := if donor_blend ≠ "" then donor_blend else "Mixed"
  let st1 := st.map (fun t => if t.name = r then {t with blend := newBlend} else t)
  let st2 := transfer_wine_state st1 donorName r donor_vol
  (st2, plan ++ [{ src := donorName, dst := r, volume := donor_vol,
                   blend_breakdown := [], blend := blend_label, mtype := "consolidation" }])

/-- The inner recipient scan (app.py lines 352-373): skip the donor itself,
transfer the donor's whole volume into the first recipient whose spare space
covers it, then stop (`break`); otherwise keep scanning. -/
def consolidateScan (st : List Tank) (plan : List Move)
    (donorName : String) (donor_vol : ℚ) (donor_blend : String) :
    List String → List Tank × List Move
  | [] => (st, plan)
  | r :: rest =>
    if donorName = r then consolidateScan st plan donorName donor_vol donor_blend rest
    else
      let recipient := (st.find? (fun t => decide (t.name = r))).getD defaultTank
      let rec_space := recipient.capacity - recipient.current_volume
      if donor_vol ≤ rec_space then consolidateApply st plan donorName donor_vol donor_blend r
      else consolidateScan st plan donorName donor_vol donor_blend rest

/-- One donor iteration (app.py lines 347-351): re-read the donor's current
volume and blend from the shared state; skip exhausted donors. -/
def consolidateDonorStep (recipNames : List String) (acc : List Tank × List Move)
    (donorName : String) : List Tank × List Move :=
  let donor := (acc.1.find? (fun t => decide (t.name = donorName))).getD defaultTank
  let donor_vol := donor.current_volume
  let donor_blend := donor.blend
  if donor_vol = 0 then acc
  else consolidateScan acc.1 acc.2 donorName donor_vol donor_blend recipNames

/-- `consolidate_tanks_any_blend(tanks)`: donors are all tanks with wine,
sorted by increasing volume; recipients are the partially filled tanks,
sorted by DECREASING spare space (`reverse=True` at app.py line 345); both
orders are fixed up front while volumes are re-read from the shared state as
it mutates.  Returns the final state and the consolidation steps. -/
def consolidate_tanks_any_blend (tanks : List Tank) : List Tank × List Move :=
  let donorNames := (sortAscBy (fun t => t.current_volume)
      (tanks.filter (fun t => decide (0 < t.current_volume)))).map (fun t => t.name)
  let recipNames := (sortDescBy (fun t => t.capacity - t.current_volume)
      (tanks.filter (fun t => decide (0 < t.current_volume) && decide (t.current_volume < t.capacity)))).map (fun t => t.name)
  donorNames.foldl (consolidateDonorStep recipNames) (tanks, [])

/-- Modelled from the spec's words, for comparison with
`consolidate_tanks_any_blend` (refinement form of the amended claim C7):
donors are processed smallest-current-volume first; each donor transfers its
entire current volume into the first recipient — taken in descending order of
spare capacity — that is not the donor itself and whose spare capacity covers
the donor's entire volume; a donor that fits nowhere is skipped, and at most
one recipient receives from each donor. -/
def consolidateSpecStep (recipNames : List String) (acc : List Tank × List Move)
    (donorName : String) : List Tank × List Move :=
  let donor := (acc.1.find? (fun t => decide (t.name = donorName))).getD defaultTank
  let v := donor.current_volume
  if v = 0 then acc
  else
    match recipNames.find? (fun r =>
        decide (r ≠ donorName) &&
        decide (v ≤ ((acc.1.find? (fun t => decide (t.name = r))).getD defaultTank).capacity
                  - ((acc.1.find? (fun t => decide (t.name = r))).getD defaultTank).current_volume)) with
    | none => acc
    | some r => consolidateApply acc.1 acc.2 donorName v donor.blend r

/-- Modelled from the spec's words (amended claim C7), see `consolidateSpecStep`. -/
def consolidateSpec (tanks : List Tank) : List Tank × List Move :=
  let donorNames := (sortAscBy (fun t => t.current_volume)
      (tanks.filter (fun t => decide (0 < t.current_volume)))).map (fun t => t.name)
  let recipNames := (sortDescBy (fun t => t.capacity - t.current_volume)
      (tanks.filter (fun t => decide (0 < t.current_volume) && decide (t.current_volume < t.capacity)))).map (fun t => t.name)
  donorNames.foldl (consolidateSpecStep recipNames) (tanks, [])

/-! ## Blend totals -/

/-- The global target-composition aggregation of `generate_blend_plan`
(app.py lines 385-392): a tank contributes its volume to its normalized
blend's total, and to the grand total, exactly when it is not flagged empty,
has positive volume, and has a truthy normalized blend label. -/
def computeBlendTotals (tanks : List Tank) : List (String × ℚ) × ℚ :=
  tanks.foldl (fun acc t =>
    let blend := normalize_blend t.blend
    let gal := t.current_volume
    if (!t.is_empty) && decide (0 < gal) && decide (blend ≠ "") then
      (bdAdd acc.1 blend gal, acc.2 + gal)
    else acc) ([], 0)

/-- The aggregation of the `validate_blend` endpoint (app.py lines 286-294):
for each tank not flagged empty, its volume is added to its blend's total and
to the grand total only inside the `if blend:` guard. -/
def validateBlendTotals (tanks : List Tank) : List (String × ℚ) × ℚ :=
  tanks.foldl (fun acc t =>
    if !t.is_empty then
      let blend := normalize_blend t.blend
      let gal := t.current_volume
      if blend ≠ "" then (bdAdd acc.1 blend gal, acc.2 + gal) else acc
    else acc) ([], 0)

/-! ## Blend plan generation (`generate_blend_plan`, app.py lines 376-641) -/

/-- Structured outcomes of the `/blend/plan` endpoint.
`notEnoughToConsolidate b` is the 400 response `'Not enough {b} to consolidate.'`;
`consolidationOnly` the early `'Consolidation completed; no further blending
needed.'` success; `blendingNotPossible` the 400 `'Blending not possible.
Please provide more empty tanks.'`; `success` the final plan response;
`crash` an unhandled Python exception escaping the handler. -/
inductive PlanResult where
  | notEnoughToConsolidate (blend : String)
  | consolidationOnly (plan : List Move) (total : ℚ)
  | blendingNotPossible
  | success (plan : List Move) (total : ℚ)
  | crash
deriving DecidableEq, Repr

/-- The multi-tank consolidation sizing loop (app.py lines 419-426): walk the
empties largest-capacity-first, assigning `min(capacity, wine_left)` until the
wine is placed; returns the assignments and the leftover. -/
def buildNeeded : List Tank → ℚ → List (String × ℚ) × ℚ
  | [], wl => ([], wl)
  | t :: rest, wl =>
    if wl ≤ 0 then ([], wl)
    else
      let fill := min t.capacity wl
      let pr := buildNeeded rest (wl - fill)
      ((t.name, fill) :: pr.1, pr.2)

/-- The consolidation-target decision (app.py lines 408-438): all wine into
the largest empty tank when it fits, else across several empties when their
combined capacity suffices, else no consolidation (`none`). -/
def consolidation_decide (emptiesSorted : List Tank) (total_wine : ℚ) :
    Option (List (String × ℚ)) :=
  match emptiesSorted with
  | [] => none
  | e0 :: _ =>
    if total_wine ≤ e0.capacity then some [(e0.name, total_wine)]
    else
      let pr := buildNeeded emptiesSorted total_wine
      if pr.2 ≤ 0 then some pr.1 else none

/-- The per-component source drain of consolidation (app.py lines 453-470):
pull `min(available, amt_to_pull)` of blend `b` from each candidate in turn,
recording a consolidation step, stopping once the remainder is ≤ 1e-6.
(`blend_left` and the consolidation-phase `wine_left` are also decremented in
the source but are re-initialised before every later read, so they are not
tracked here.) -/
def pullFromSources (b dstName : String) :
    List String → List Tank → List Move → ℚ → List Tank × List Move × ℚ
  | [], st, plan, amt => (st, plan, amt)
  | src :: rest, st, plan, amt =>
    let available := bdLookup
        (((st.find? (fun t => decide (t.name = src))).getD defaultTank).blend_breakdown.getD []) b
    let mv := min available amt
    if mv ≤ 0 then pullFromSources b dstName rest st plan amt
    else
      let st2 := transfer_wine_state st src dstName mv
      let plan2 := plan ++ [{ src := src, dst := dstName, volume := mv,
                              blend_breakdown := [], blend := b, mtype := "consolidation" }]
      let amt2 := amt - mv
      if amt2 ≤ 1/1000000 then (st2, plan2, amt2)
      else pullFromSources b dstName rest st2 plan2 amt2

/-- The per-blend loop of one consolidation entry (app.py lines 450-472):
candidates are the source tanks currently holding blend `b`; a leftover above
1e-3 aborts the whole endpoint with `'Not enough {b} to consolidate.'`. -/
def fillEntryBlends (sourceNames : List String) (dst : String) :
    List (String × ℚ) → List Tank → List Move → Except String (List Tank × List Move)
  | [], st, plan => .ok (st, plan)
  | (b, amount) :: rest, st, plan =>
    let candidates := sourceNames.filter (fun n =>
      decide (0 < bdLookup
        (((st.find? (fun t => decide (t.name = n))).getD defaultTank).blend_breakdown.getD []) b))
    let pr := pullFromSources b dst candidates st plan amount
    if 1/1000 < pr.2.2 then .error b
    else fillEntryBlends sourceNames dst rest pr.1 pr.2.1

/-- One consolidation target (app.py lines 445-475): fill it per the global
blend proportions, then overwrite its fields with the intended totals
(`is_empty = False`, volume and breakdown set to `blend_fill` exactly). -/
def performEntry (sourceNames : List String) (pct : List (String × ℚ))
    (st : List Tank) (plan : List Move) (entry : String × ℚ) :
    Except String (List Tank × List Move) :=
  let blend_fill := pct.map (fun p => (p.1, entry.2 * p.2 / 100))
  match fillEntryBlends sourceNames entry.1 blend_fill st plan with
  | .error b => .error b
  | .ok pr =>
    .ok (pr.1.map (fun t => if t.name = entry.1 then
          {t with is_empty := false,
                  current_volume := (blend_fill.map (fun p => p.2)).sum,
                  blend_breakdown := some blend_fill} else t), pr.2)

def performEntries (sourceNames : List String) (pct : List (String × ℚ)) :
    List (String × ℚ) → List Tank → List Move → Except String (List Tank × List Move)
  | [], st, plan => .ok (st, plan)
  | e :: rest, st, plan =>
    match performEntry sourceNames pct st plan e with
    | .error b => .error b
    | .ok pr => performEntries sourceNames pct rest pr.1 pr.2

/-- The whole performed-consolidation block (app.py lines 441-481): fill every
target entry, then mark every non-target tank empty with zero volume and an
empty breakdown. -/
def performConsolidation (working : List Tank) (sourceNames : List String)
    (entries : List (String × ℚ)) (pct : List (String × ℚ)) :
    Except String (List Tank × List Move) :=
  match performEntries sourceNames pct entries working [] with
  | .error b => .error b
  | .ok pr =>
    .ok (pr.1.map (fun t => if entries.any (fun e => decide (e.1 = t.name)) then t
          else {t with is_empty := true, current_volume := 0, blend_breakdown := some []}), pr.2)

/-- Consolidation stage of `generate_blend_plan` (app.py lines 399-483):
an `error` is the early `'Not enough {blend} to consolidate.'` response;
otherwise the updated working snapshot and the consolidation transfer plan
(empty when consolidation was skipped;
`if performed_consolidation and consolidation_tanks:` also skips an empty
target list). -/
def consolidationOutcome (working : List Tank) (emptiesSorted : List Tank)
    (pct : List (String × ℚ)) (total_wine : ℚ) : Except String (List Tank × List Move) :=
  let sourceNames := (working.filter (fun t =>
      (!t.is_empty) && decide (0 < t.current_volume))).map (fun t => t.name)
  match consolidation_decide emptiesSorted total_wine with
  | none => .ok (working, [])
  | some entries =>
    if entries = [] then .ok (working, [])
    else performConsolidation working sourceNames entries pct

/-- Context handed from the pre-loop phase of `generate_blend_plan` to the
100-attempt loop: the consolidated working snapshot, the full/empty tank
reference lists of app.py lines 486-488 (as name lists into `working`), the
aggregates, the consolidation plan prefix, and the untouched global
(authoritative) tank list the double-swap branch writes to. -/
structure PreCtx where
  working : List Tank
  fullNames : List String
  emptyNames : List String
  blend_totals : List (String × ℚ)
  blend_percentages : List (String × ℚ)
  total_wine : ℚ
  consPlan : List Move
  globalTanks : List Tank
deriving DecidableEq, Repr

inductive PreResult where
  | early (r : PlanResult)
  | toLoop (ctx : PreCtx)
deriving DecidableEq, Repr

/-- Everything `generate_blend_plan` does before the attempt loop
(app.py lines 384-500): aggregate totals and percentages, deep-copy and
initialise the working snapshot, run the consolidation stage, rebuild the
full/empty lists, and return early with the consolidation-only success when
`blending_is_not_needed` already holds. -/
def plan_pre (tanks : List Tank) : PreResult :=
  let tw := computeBlendTotals tanks
  let blend_totals := tw.1
  let total_wine := tw.2
  let blend_percentages := blend_totals.map (fun p => (p.1, p.2 / total_wine * 100))
  let working := init_blend_breakdown tanks
  let emptiesSorted := sortDescBy (fun t => t.capacity)
      (working.filter (fun t => t.is_empty || decide (t.current_volume = 0)))
  match consolidationOutcome working emptiesSorted blend_percentages total_wine with
  | .error b => .early (.notEnoughToConsolidate b)
  | .ok pr =>
    let working2 := pr.1
    let consPlan := pr.2
    let fullNames := (working2.filter (fun t =>
        (!t.is_empty) && decide (0 < t.current_volume))).map (fun t => t.name)
    let emptyNames := (working2.filter (fun t =>
        t.is_empty || decide (t.current_volume = 0))).map (fun t => t.name)
    if blending_is_not_needed working2 blend_percentages 2 then
      .early (.consolidationOnly consPlan (round4 total_wine))
    else
      .toLoop { working := working2, fullNames := fullNames, emptyNames := emptyNames,
                blend_totals := blend_totals, blend_percentages := blend_percentages,
                total_wine := total_wine, consPlan := consPlan, globalTanks := tanks }

/-- Source of the loop's randomness: `random.shuffle(shuffled_empties)` and
`random.sample(full_tanks, 2)`, indexed by the attempt number. -/
structure RandOracle where
  shuffle : ℕ → List Tank → List Tank
  sample2 : ℕ → List Tank → Tank × Tank

/-- A concrete oracle: identity shuffle; sample = first two list elements. -/
def idOracle : RandOracle :=
  { shuffle := fun _ l => l,
    sample2 := fun _ l => (l.headD defaultTank, (l.drop 1).headD defaultTank) }

/-- The selector state across attempts (`best_plan`, `best_num_tanks`,
`best_num_transfers` of app.py lines 507-509; `none` counts model
`float('inf')`), the global tank list (mutated only by the double-swap
branch), and the number of loop iterations executed. -/
structure LoopState where
  best : Option (List Move)
  bestNumTanks : Option ℕ
  bestNumTransfers : Option ℕ
  globalTanks : List Tank
  attempts : ℕ
deriving DecidableEq, Repr

def ltOpt (n : ℕ) : Option ℕ → Bool
  | none => true
  | some m => decide (n < m)

def leOpt (n : ℕ) : Option ℕ → Bool
  | none => true
  | some m => decide (n ≤ m)

/-- The plan-selector update (app.py lines 612-617): on an accepted trial,
replace the best plan when `len(tanks_with_wine) <= best_num_tanks` and
(`<` holds, or the plan has strictly fewer transfers). -/
def updateBest (st : LoopState) (accepted : Bool) (numTanks numTransfers : ℕ)
    (plan : List Move) : LoopState :=
  if accepted && leOpt numTanks st.bestNumTanks &&
      (ltOpt numTanks st.bestNumTanks || ltOpt numTransfers st.bestNumTransfers) then
    { st with best := some plan, bestNumTanks := some numTanks,
              bestNumTransfers := some numTransfers }
  else st

/-- The per-destination blend_fill construction (app.py lines 548-555):
accumulate `fill_amount * pct / 100` per component in order, stopping with
the `limiting` flag as soon as some component's remaining supply is short. -/
def buildBlendFill (blend_left : List (String × ℚ)) (fill_amount : ℚ) :
    List (String × ℚ) → List (String × ℚ) → List (String × ℚ) × Bool
  | [], acc => (acc, false)
  | (b, p) :: rest, acc =>
    let need := fill_amount * p / 100
    if bdLookup blend_left b < need then (acc, true)
    else buildBlendFill blend_left fill_amount rest (acc ++ [(b, need)])

/-- `fill_max` of app.py lines 558-561: the minimum of
`blend_left[b] / (pct/100)` over components with positive percentage
(components with `pct <= 0` contribute `float('inf')`, modelled by being
skipped; `none` models an all-infinite minimum). -/
def fillMaxOpt (pct : List (String × ℚ)) (blend_left : List (String × ℚ)) : Option ℚ :=
  pct.foldl (fun (acc : Option ℚ) (p : String × ℚ) =>
    if 0 < p.2 then
      let v := bdLookup blend_left p.1 / (p.2 / 100)
      match acc with
      | none => some v
      | some m => some (min m v)
    else acc) none

/-- The per-component source drain of a trial (app.py lines 585-601): walk the
sorted sources, moving `min(source volume, to_transfer)` via `transfer_wine`
into the destination trial tank and recording the move, until `to_transfer`
is exhausted. -/
def drawSources (b etankName : String) :
    List String → List Tank → List Move → List (String × ℚ) → ℚ → ℚ →
    List Tank × List Move × List (String × ℚ) × ℚ
  | [], trial, plan, blend_left, wine_left, _ => (trial, plan, blend_left, wine_left)
  | src :: rest, trial, plan, blend_left, wine_left, to_transfer =>
    if to_transfer ≤ 0 then (trial, plan, blend_left, wine_left)
    else
      let available := ((trial.find? (fun t => decide (t.name = src))).getD defaultTank).current_volume
      let mv := min available to_transfer
      if mv ≤ 0 then drawSources b etankName rest trial plan blend_left wine_left to_transfer
      else
        let trial2 := transfer_wine_state trial src etankName mv
        let plan2 := plan ++ [{ src := src, dst := etankName, volume := mv,
                                blend_breakdown := [], blend := b, mtype := "" }]
        drawSources b etankName rest trial2 plan2 (bdAdd blend_left b (-mv)) (wine_left - mv) (to_transfer - mv)

/-- The per-blend loop of one destination tank (app.py lines 578-601): sources
are the trial tanks currently holding blend `b`, largest volume first. -/
def fillBlends (etankName : String) :
    List (String × ℚ) → List Tank → List Move → List (String × ℚ) → ℚ →
    List Tank × List Move × List (String × ℚ) × ℚ
  | [], trial, plan, blend_left, wine_left => (trial, plan, blend_left, wine_left)
  | (b, amount) :: rest, trial, plan, blend_left, wine_left =>
    let srcNames := (sortDescBy (fun t => t.current_volume)
        (trial.filter (fun t => decide (0 < t.current_volume) &&
          decide (0 < bdLookup (t.blend_breakdown.getD []) b)))).map (fun t => t.name)
    let r := drawSources b etankName srcNames trial plan blend_left wine_left amount
    fillBlends etankName rest r.1 r.2.1 r.2.2.1 r.2.2.2

/-- app.py lines 567-575: locate the actual destination tank inside
`trial_tanks` by name, appending a copy with an empty breakdown when missing,
otherwise replacing a missing/empty breakdown by the empty dict. -/
def ensureEtankTrial (trial : List Tank) (etank : Tank) : List Tank :=
  match trial.find? (fun t => decide (t.name = etank.name)) with
  | some _ =>
    trial.map (fun t => if decide (t.name = etank.name) &&
        (decide (t.blend_breakdown = none) || decide (t.blend_breakdown = some [])) then
        {t with blend_breakdown := some []} else t)
  | none => trial ++ [{etank with blend_breakdown := some []}]

/-- One destination tank of a trial (app.py lines 538-601): headroom from the
shuffled copy, `fill_amount = min(headroom, wine_left)`, the `limiting`
rescale, then the per-blend draws into the trial tank. -/
def processEtank (pct : List (String × ℚ)) (etank : Tank)
    (trial : List Tank) (plan : List Move) (blend_left : List (String × ℚ)) (wine_left : ℚ) :
    List Tank × List Move × List (String × ℚ) × ℚ :=
  let tank_capacity := etank.capacity - etank.current_volume
  if tank_capacity ≤ 0 then (trial, plan, blend_left, wine_left)
  else
    let fill_amount := min tank_capacity wine_left
    let bf := buildBlendFill blend_left fill_amount pct []
    if bf.2 then
      let fm := fillMaxOpt pct blend_left
      let fill_amount2 := match fm with | some m => min fill_amount m | none => fill_amount
      let blend_fill := pct.map (fun p => (p.1, fill_amount2 * p.2 / 100))
      if fill_amount2 ≤ 0 then (trial, plan, blend_left, wine_left)
      else fillBlends etank.name blend_fill (ensureEtankTrial trial etank) plan blend_left wine_left
    else fillBlends etank.name bf.1 (ensureEtankTrial trial etank) plan blend_left wine_left

/-- The destination loop of a trial (app.py lines 538-601); the loop breaks
once `wine_left <= 0`. -/
def processEtanks (pct : List (String × ℚ)) :
    List Tank → List Tank → List Move → List (String × ℚ) → ℚ →
    List Tank × List Move × List (String × ℚ) × ℚ
  | [], trial, plan, blend_left, wine_left => (trial, plan, blend_left, wine_left)
  | etank :: rest, trial, plan, blend_left, wine_left =>
    if wine_left ≤ 0 then (trial, plan, blend_left, wine_left)
    else
      let r := processEtank pct etank trial plan blend_left wine_left
      processEtanks pct rest r.1 r.2.1 r.2.2.1 r.2.2.2

/-- The double-swap application loop (app.py lines 533-535):
`apply_transfer(tanks, move)` runs against the GLOBAL tank list, then
`best_plan.append(move)` runs on the selector variable — which is `None`
until some earlier attempt accepted a trial, so the first move's append
raises `AttributeError` (an `error` result); a raising `apply_transfer`
(`error`) likewise aborts the request, in both cases after the global list
was already partially mutated. -/
def applySwapMoves :
    List Move → List Tank → Option (List Move) → Except (List Tank) (List Tank × Option (List Move))
  | [], g, best => .ok (g, best)
  | m :: rest, g, best =>
    let pr := apply_transfer g m
    if pr.2 then
      match best with
      | none => .error pr.1
      | some bp => applySwapMoves rest pr.1 (some (bp ++ [m]))
    else .error pr.1

/-- The tail of one attempt after the double-swap branch (app.py lines
537-617): fill the shuffled destinations, zero the original source tanks,
evaluate acceptance on the tanks still holding wine, update the selector,
count the attempt. -/
def attemptRest (ctx : PreCtx) (st : LoopState) (shuffled_empties : List Tank)
    (trial : List Tank) (plan0 : List Move) : LoopState :=
  let r := processEtanks ctx.blend_percentages shuffled_empties trial plan0
      ctx.blend_totals ctx.total_wine
  let trialZ := r.1.map (fun t => if ctx.fullNames.contains t.name then
      {t with current_volume := 0, blend_breakdown := some []} else t)
  let plan := r.2.1
  let tanks_with_wine := trialZ.filter (fun t => decide (0 < t.current_volume))
  let accepted := blending_is_not_needed tanks_with_wine ctx.blend_percentages 2
  let st2 := updateBest st accepted tanks_with_wine.length plan.length plan
  { st2 with attempts := st2.attempts + 1 }

/-- One iteration of the attempt loop (app.py lines 511-628): rebuild the
shuffled destination copies and the trial snapshot, take the double-swap
branch when at least two full and one empty tank exist (crashing as
`applySwapMoves` describes), then run the trial tail. -/
def attemptBody (o : RandOracle) (ctx : PreCtx) (st : LoopState) (attempt : ℕ) :
    Except (List Tank) LoopState :=
  let workingEmpties := ctx.emptyNames.filterMap
      (fun n => ctx.working.find? (fun t => decide (t.name = n)))
  let shuffled_empties := o.shuffle attempt workingEmpties
  let fullVals := ctx.fullNames.filterMap
      (fun n => ctx.working.find? (fun t => decide (t.name = n)))
  let trial := init_blend_breakdown (fullVals ++ workingEmpties)
  if 2 ≤ ctx.fullNames.length ∧ 1 ≤ ctx.emptyNames.length then
    let pr := o.sample2 attempt fullVals
    let te := workingEmpties.headD defaultTank
    let moves := double_swap pr.1 pr.2 te
    match applySwapMoves moves st.globalTanks st.best with
    | .error g => .error g
    | .ok g => .ok (attemptRest ctx { st with globalTanks := g.1, best := g.2 }
        shuffled_empties trial ctx.consPlan)
  else
    .ok (attemptRest ctx st shuffled_empties trial ctx.consPlan)

/-- The fixed 100-attempt loop (app.py line 511); an `error` is an unhandled
exception carrying the global tank list as mutated so far. -/
def runAttempts (o : RandOracle) (ctx : PreCtx) : Except (List Tank) LoopState :=
  (List.range 100).foldlM (attemptBody o ctx)
    { best := none, bestNumTanks := none, bestNumTransfers := none,
      globalTanks := ctx.globalTanks, attempts := 0 }

/-- The post-loop output (app.py lines 630-641): `if not best_plan:` treats
both `None` (no accepted trial) and the empty list (an accepted trial whose
plan has no operations) as `'Blending not possible'`. -/
def finalize (ctx : PreCtx) (st : LoopState) : PlanResult :=
  match st.best with
  | none => .blendingNotPossible
  | some [] => .blendingNotPossible
  | some plan => .success plan (round4 ctx.total_wine)

/-- The whole `/blend/plan` handler: returns the structured outcome and the
global (authoritative) tank list as it stands after the request. -/
def generate_blend_plan (tanks : List Tank) (o : RandOracle) : PlanResult × List Tank :=
  match plan_pre tanks with
  | .early r => (r, tanks)
  | .toLoop ctx =>
    match runAttempts o ctx with
    | .error g => (.crash, g)
    | .ok st => (finalize ctx st, st.globalTanks)

/-! ## Concrete inputs used by the claim theorems -/

/-- Two full labelled tanks and one empty tank — the snapshot sending
`generate_blend_plan` into the double-swap branch. -/
def demoSwapTanks : List Tank :=
  [ { name := "a", blend := "x", is_empty := false, current_volume := 100, capacity := 100, blend_breakdown := none },
    { name := "b", blend := "y", is_empty := false, current_volume := 100, capacity := 100, blend_breakdown := none },
    { name := "e", blend := "", is_empty := true, current_volume := 0, capacity := 50, blend_breakdown := none } ]

/-- One full labelled source tank. -/
def demoC3Source : Tank :=
  { name := "a", blend := "x", is_empty := false, current_volume := 100, capacity := 100, blend_breakdown := none }

/-- One large empty tank (its capacity exceeds the available volume, so the
aggregate feasibility condition of `can_make_blend` fails for it). -/
def demoC3Target : Tank :=
  { name := "e", blend := "", is_empty := true, current_volume := 0, capacity := 500, blend_breakdown := none }

/-- Two full, compositionally mismatched tanks and no empty tank. -/
def demoC6Tanks : List Tank :=
  [ { name := "a", blend := "x", is_empty := false, current_volume := 100, capacity := 100, blend_breakdown := none },
    { name := "b", blend := "y", is_empty := false, current_volume := 100, capacity := 100, blend_breakdown := none } ]

/-- The loop context `generate_blend_plan` builds for a snapshot, when the
pre-loop phase does not return early. -/
def preCtxOf (tanks : List Tank) : Option PreCtx :=
  match plan_pre tanks with
  | .toLoop ctx => some ctx
  | .early _ => none

/-- A donor of volume 4 and two partially filled recipients: `r1` with spare
space 5 and `r2` with spare space 20. -/
def demoC7Tanks : List Tank :=
  [ { name := "d", blend := "x", is_empty := false, current_volume := 4, capacity := 4, blend_breakdown := some [("x", 4)] },
    { name := "r1", blend := "x", is_empty := false, current_volume := 15, capacity := 20, blend_breakdown := some [("x", 15)] },
    { name := "r2", blend := "x", is_empty := false, current_volume := 10, capacity := 30, blend_breakdown := some [("x", 10)] } ]

/-- A single tank holding 50 units of wine with an empty blend label:
no positive-volume, labelled-component wine exists anywhere. -/
def demoC8Tanks : List Tank :=
  [ { name := "t", blend := "", is_empty := false, current_volume := 50, capacity := 100, blend_breakdown := none } ]

/-- Donor for the C4 witness. -/
def c4donor : Tank :=
  { name := "d", blend := "x", is_empty := false, current_volume := 60,
    capacity := 80, blend_breakdown := some [("x", 40), ("y", 20)] }

/-- Recipient for the C4 witness. -/
def c4recipient : Tank :=
  { name := "r", blend := "", is_empty := true, current_volume := 10,
    capacity := 100, blend_breakdown := some [("y", 10)] }

/-- Tank list for the C5 witness. -/
def c5tanks : List Tank :=
  [ { name := "s", blend := "x", is_empty := false, current_volume := 30, capacity := 40, blend_breakdown := some [("x", 30)] },
    { name := "t", blend := "y", is_empty := false, current_volume := 90, capacity := 100, blend_breakdown := some [("y", 90)] } ]

/-- A move requesting more than the destination's headroom (the applied
amount is clamped to 10). -/
def c5move : Move :=
  { src := "s", dst := "t", volume := 25, blend_breakdown := [("x", 25)], blend := "", mtype := "" }

/-- A single tank whose composition is pure "x" while the target below is
pure "y". -/
def c9tanks : List Tank :=
  [ { name := "only", blend := "x", is_empty := false, current_volume := 100,
      capacity := 100, blend_breakdown := some [("x", 100)] } ]

/-- A labelled contributing tank for the C10 witness. -/
def c10labeled : Tank :=
  { name := "l", blend := "x", is_empty := false, current_volume := 70, capacity := 100, blend_breakdown := none }

/-- A tank with positive volume and a whitespace-only blend label
(normalizes to the empty string). -/
def c10unlabeled : Tank :=
  { name := "u", blend := "  ", is_empty := false, current_volume := 33, capacity := 50, blend_breakdown := none }

/-- An app-shaped snapshot with no labelled wine, for the C8 witness. -/
def c8witnessTanks : List Tank :=
  [ { name := "w", blend := "", is_empty := false, current_volume := 30, capacity := 40, blend_breakdown := none } ]

instance {α β : Type} [DecidableEq α] [DecidableEq β] : DecidableEq (Except α β) := fun a b =>
  match a, b with
  | .error x, .error y =>
    if h : x = y then .isTrue (by rw [h]) else .isFalse (by intro hh; cases hh; exact h rfl)
  | .ok x, .ok y =>
    if h : x = y then .isTrue (by rw [h]) else .isFalse (by intro hh; cases hh; exact h rfl)
  | .error _, .ok _ => .isFalse (by intro hh; cases hh)
  | .ok _, .error _ => .isFalse (by intro hh; cases hh)

/-- An empty loop context, for the C6 witness. -/
def trivialCtx : PreCtx :=
  { working := [], fullNames := [], emptyNames := [], blend_totals := [],
    blend_percentages := [], total_wine := 0, consPlan := [], globalTanks := [] }

/-! ## Claim theorems -/

-- the batteries rational-arithmetic primitives are `@[irreducible]`, which
-- blocks `decide`-style evaluation of the executable model on concrete
-- inputs; restore their reducibility for the proofs below
unseal Rat.add Rat.sub Rat.mul Rat.inv Rat.ofScientific

/-- Claim C1 (code bug): the claim says blend-plan generation never crashes,
and in particular returns a structured outcome when at least two full tanks
and one empty tank exist; on exactly such a snapshot the double-swap branch
raises an unhandled exception (`best_plan` is `None` when
`best_plan.append(move)` runs, and `apply_transfer` hits the global tanks,
which lack the `blend_breakdown` key). -/
theorem C1_crash_eval :
    (demoSwapTanks.filter (fun t => (!t.is_empty) && decide (0 < t.current_volume))).length = 2 ∧
    (demoSwapTanks.filter (fun t => t.is_empty || decide (t.current_volume = 0))).length = 1 ∧
    (generate_blend_plan demoSwapTanks idOracle).1 = PlanResult.crash := by
  refine ⟨by decide, by decide, by decide⟩

/-- Claim C2 (code bug): on the double-swap snapshot the global
(authoritative) tank list is mutated by `apply_transfer(tanks, move)` —
tank "a" drops from 100 to 50 before the request dies — contradicting the
claim that the caller's tank list is never mutated. -/
theorem C2_global_mutation_eval :
    ((generate_blend_plan demoSwapTanks idOracle).2.find?
        (fun t => decide (t.name = "a"))).map (fun t => t.current_volume) = some 50 ∧
    (demoSwapTanks.find? (fun t => decide (t.name = "a"))).map
        (fun t => t.current_volume) = some 100 := by
  refine ⟨by decide, by decide⟩

/-- Claim C3 (counterexample): `can_make_blend`'s necessary condition fails on
this snapshot (100 available vs 500 of target capacity), yet
`generate_blend_plan` does not short-circuit with any infeasibility failure —
it returns the consolidation-only success outcome.  The feasibility checker is
never invoked by the planner. -/
theorem C3_counterexample :
    can_make_blend [("x", 100)] [demoC3Source] [demoC3Target] = false ∧
    (generate_blend_plan [demoC3Source, demoC3Target] idOracle).1 =
      PlanResult.consolidationOnly
        [{ src := "a", dst := "e", volume := 100, blend_breakdown := [],
           blend := "x", mtype := "consolidation" }] 100 := by
  refine ⟨by decide, by decide⟩

set_option maxRecDepth 40000 in
/-- Claim C6 (counterexample): on two mismatched full tanks with no empties,
attempt 0 already yields an accepted trial with zero tanks holding wine and
zero transfer operations beyond consolidation (`best = some []`,
`bestNumTanks = bestNumTransfers = some 0`), yet the loop still executes all
100 attempts (no early stop), and the planner then reports
`'Blending not possible'` instead of the retained empty plan. -/
theorem C6_counterexample :
    (preCtxOf demoC6Tanks).map (runAttempts idOracle) =
      some (Except.ok { best := some [], bestNumTanks := some 0,
                        bestNumTransfers := some 0, globalTanks := demoC6Tanks,
                        attempts := 100 }) ∧
    (generate_blend_plan demoC6Tanks idOracle).1 = PlanResult.blendingNotPossible := by
  refine ⟨by decide, by decide⟩

/-- Claim C7 (counterexample): recipient `r1` has spare space 5 and `r2`
spare space 20, yet the first donor (volume 4) transfers into `r2` — the
recipient with the MOST spare room — not into `r1` as the claimed ascending
spare-capacity order ("least spare room first ... has any spare room")
would require. -/
theorem C7_counterexample :
    (consolidate_tanks_any_blend demoC7Tanks).2.map (fun m => (m.src, m.dst, m.volume)) =
      [("d", "r2", 4), ("r1", "r2", 15)] ∧
    ((demoC7Tanks.find? (fun t => decide (t.name = "r1"))).map
        (fun t => t.capacity - t.current_volume)) = some 5 ∧
    ((demoC7Tanks.find? (fun t => decide (t.name = "r2"))).map
        (fun t => t.capacity - t.current_volume)) = some 20 := by
  refine ⟨by decide, by decide, by decide⟩

/-- Claim C8 (counterexample): with no positive-volume labelled wine anywhere
(one unlabelled tank holding 50), `generate_blend_plan` does NOT surface a
`NoVolume` failure: it returns the `'no further blending needed'` success
outcome with an empty plan (and an untouched global list). -/
theorem C8_counterexample :
    generate_blend_plan demoC8Tanks idOracle =
      (PlanResult.consolidationOnly [] 0, demoC8Tanks) := by
  decide

/-! ## Helper lemmas -/

theorem forall_mem_set {P : Tank → Prop} {l : List Tank} {n : ℕ} {x : Tank}
    (hl : ∀ t ∈ l, P t) (hx : P x) : ∀ t ∈ l.set n x, P t := by
  intro t ht
  rcases List.mem_or_eq_of_mem_set ht with hm | hm
  · exact hl t hm
  · exact hm ▸ hx

theorem firstIdx_getD {p : Tank → Bool} {l : List Tank} {i : ℕ}
    (h : firstIdx p l = some i) :
    l.getD i defaultTank ∈ l ∧ p (l.getD i defaultTank) = true := by
  induction l generalizing i with
  | nil => simp [firstIdx] at h
  | cons a as ih =>
    rw [firstIdx] at h
    by_cases hp : p a
    · simp only [hp, if_pos, Option.some.injEq] at h
      subst h
      exact ⟨List.mem_cons_self a as, by simpa using hp⟩
    · simp only [hp, if_neg, Bool.false_eq_true, reduceIte, Option.map_eq_some'] at h
      obtain ⟨j, hj, hji⟩ := h
      subst hji
      have hr := ih hj
      rw [List.getD_cons_succ]
      exact ⟨List.mem_cons_of_mem _ hr.1, hr.2⟩

/-! ## Confirmed claims -/

/-- Claim C4 (confirmed): `transfer_wine(donor, recipient, volume)` with
`0 ≤ volume ≤ donor volume` decreases the donor's `current_volume` by exactly
`volume`, increases the recipient's by exactly `volume` (their sum is
conserved), splits the moved volume across components in proportion to the
donor's effective composition, and leaves in the donor's mapping only entries
strictly above the 1e-3 epsilon. -/
theorem C4_transfer_wine_spec (donor recipient : Tank) (volume : ℚ)
    (h0 : 0 ≤ volume) (h1 : volume ≤ donor.current_volume) :
    (transfer_wine donor recipient volume).1.current_volume
        = donor.current_volume - volume ∧
    (transfer_wine donor recipient volume).2.current_volume
        = recipient.current_volume + volume ∧
    (transfer_wine donor recipient volume).1.current_volume
        + (transfer_wine donor recipient volume).2.current_volume
      = donor.current_volume + recipient.current_volume ∧
    (∀ p ∈ (transfer_wine donor recipient volume).1.blend_breakdown.getD [],
        (1:ℚ)/1000 < p.2) ∧
    transferBreakdown donor volume
      = (effectiveBreakdown donor).map (fun p => (p.1, p.2 * transferFrac donor volume)) := by
  refine ⟨rfl, rfl, ?_, ?_, rfl⟩
  · show donor.current_volume - volume + (recipient.current_volume + volume)
        = donor.current_volume + recipient.current_volume
    ring
  · intro p hp
    have hp' : p ∈ ((effectiveBreakdown donor).map
        (fun q => (q.1, q.2 - q.2 * transferFrac donor volume))).filter
        (fun q => decide (1/1000 < q.2)) := hp
    exact of_decide_eq_true (List.mem_filter.mp hp').2

/-- Witness for C4: the hypotheses hold at a concrete donor, recipient and
volume, and the theorem applies there. -/
theorem C4_transfer_wine_spec_witness :
    ((0:ℚ) ≤ 30 ∧ (30:ℚ) ≤ c4donor.current_volume) ∧
    (transfer_wine c4donor c4recipient 30).1.current_volume
      = c4donor.current_volume - 30 :=
  ⟨⟨by norm_num, by decide⟩,
   (C4_transfer_wine_spec c4donor c4recipient 30 (by norm_num) (by decide)).1⟩

/-- Claim C9 (confirmed): `blending_is_not_needed` returns `True` whenever
exactly one tank in the list has positive volume, regardless of that tank's
composition and of the target percentages; the tolerance and rogue checks run
only when the early return did not fire. -/
theorem C9_single_tank_accepts (working : List Tank) (gbp : List (String × ℚ)) (tol : ℚ)
    (h : (working.filter (fun t => decide (0 < t.current_volume))).length = 1) :
    blending_is_not_needed working gbp tol = true := by
  unfold blending_is_not_needed
  simp [h]

/-- Witness for C9: a single tank of pure "x" is accepted against a pure "y"
target. -/
theorem C9_single_tank_accepts_witness :
    (c9tanks.filter (fun t => decide (0 < t.current_volume))).length = 1 ∧
    blending_is_not_needed c9tanks [("y", 100)] 2 = true :=
  ⟨by decide, C9_single_tank_accepts c9tanks [("y", 100)] 2 (by decide)⟩

/-- Claim C10 (confirmed): a tank with positive volume whose blend label
normalizes to the empty string contributes neither to any component's total
nor to the denominator, both in the planner's target computation and in the
`validate_blend` aggregate. -/
theorem C10_unlabeled_excluded (tanks : List Tank) (t : Tank)
    (hv : 0 < t.current_volume) (hb : normalize_blend t.blend = "") :
    computeBlendTotals (tanks ++ [t]) = computeBlendTotals tanks ∧
    validateBlendTotals (tanks ++ [t]) = validateBlendTotals tanks := by
  constructor
  · unfold computeBlendTotals
    rw [List.foldl_append]
    simp [hb]
  · unfold validateBlendTotals
    rw [List.foldl_append]
    simp [hb]

/-- Witness for C10: a whitespace-labelled tank with volume 33 leaves both
aggregates unchanged. -/
theorem C10_unlabeled_excluded_witness :
    ((0:ℚ) < c10unlabeled.current_volume ∧ normalize_blend c10unlabeled.blend = "") ∧
    computeBlendTotals ([c10labeled] ++ [c10unlabeled]) = computeBlendTotals [c10labeled] :=
  ⟨⟨by decide, by decide⟩,
   (C10_unlabeled_excluded [c10labeled] c10unlabeled (by decide) (by decide)).1⟩

/-- Claim C5 (confirmed): applying any transfer move to a tank list in which
every tank satisfies `0 ≤ current_volume ≤ capacity` preserves that invariant
for every tank — the applied amount is clamped to
`min(requested, source volume, destination headroom)` — including the states
left behind by the modelled `KeyError` exits. -/
theorem C5_apply_transfer_capacity (tanks : List Tank) (move : Move)
    (h : ∀ t ∈ tanks, 0 ≤ t.current_volume ∧ t.current_volume ≤ t.capacity) :
    ∀ t ∈ (apply_transfer tanks move).1,
      0 ≤ t.current_volume ∧ t.current_volume ≤ t.capacity := by
  unfold apply_transfer
  cases hi : firstIdx (fun t => decide (t.name = move.src)) tanks with
  | none =>
    cases hj : firstIdx (fun t => decide (t.name = move.dst)) tanks <;> exact h
  | some i =>
    cases hj : firstIdx (fun t => decide (t.name = move.dst)) tanks with
    | none => exact h
    | some j =>
      simp only
      obtain ⟨hmemi, -⟩ := firstIdx_getD hi
      obtain ⟨hmemj, -⟩ := firstIdx_getD hj
      obtain ⟨hi0, hi1⟩ := h _ hmemi
      obtain ⟨hj0, hj1⟩ := h _ hmemj
      set tf := tanks.getD i defaultTank with htf
      set tt := tanks.getD j defaultTank with htt
      set amount := min (min move.volume tf.current_volume) (tt.capacity - tt.current_volume) with hamount
      have hale : amount ≤ tf.current_volume :=
        le_trans (min_le_left _ _) (min_le_right _ _)
      have hato : amount ≤ tt.capacity - tt.current_volume := min_le_right _ _
      split
      · exact h
      · next hpos =>
        push_neg at hpos
        repeat' split
        all_goals
          first
          | exact h
          | (refine forall_mem_set h ⟨?_, ?_⟩ <;>
              first
              | (show (0:ℚ) ≤ tf.current_volume - amount
                 linarith)
              | (show tf.current_volume - amount ≤ tf.capacity
                 linarith)
              | (show (0:ℚ) ≤ tf.current_volume
                 exact hi0)
              | (show tf.current_volume ≤ tf.capacity
                 exact hi1))
          | (refine forall_mem_set (forall_mem_set h ⟨?_, ?_⟩) ⟨?_, ?_⟩ <;>
              first
              | (show (0:ℚ) ≤ tf.current_volume - amount
                 linarith)
              | (show tf.current_volume - amount ≤ tf.capacity
                 linarith)
              | (show (0:ℚ) ≤ tt.current_volume + amount
                 linarith)
              | (show tt.current_volume + amount ≤ tt.capacity
                 linarith))

/-- Witness for C5: the invariant hypothesis holds on a concrete tank list,
and the theorem applies there to the clamped move. -/
theorem C5_apply_transfer_capacity_witness :
    (∀ t ∈ c5tanks, 0 ≤ t.current_volume ∧ t.current_volume ≤ t.capacity) ∧
    (∀ t ∈ (apply_transfer c5tanks c5move).1,
        0 ≤ t.current_volume ∧ t.current_volume ≤ t.capacity) :=
  ⟨by decide, C5_apply_transfer_capacity c5tanks c5move (by decide)⟩

/-- Claim C3 (amended): `can_make_blend` does implement the stated necessary
condition — it returns `false` exactly when total available source volume is
below total target capacity, or some component is short by more than the
1e-3 epsilon — but `generate_blend_plan` never invokes it, so its failure
does not short-circuit planning (see `C3_counterexample`). -/
theorem C3_amended (target_ratios : List (String × ℚ)) (source_tanks target_tanks : List Tank) :
    can_make_blend target_ratios source_tanks target_tanks = false ↔
      ((source_tanks.map (fun t => t.current_volume)).sum
          < (target_tanks.map (fun t => t.capacity)).sum ∨
       ∃ p ∈ target_ratios,
         ((source_tanks.filter (fun t => decide (normalize_blend t.blend = p.1))).map
             (fun t => t.current_volume)).sum + 1/1000
           < p.2 / 100 * (target_tanks.map (fun t => t.capacity)).sum) := by
  unfold can_make_blend
  by_cases hlt : (source_tanks.map (fun t => t.current_volume)).sum
      < (target_tanks.map (fun t => t.capacity)).sum
  · simp [hlt]
  · simp [hlt, List.all_eq_false]

/-- The inner recipient scan of the consolidation pass is the first recipient
(in the fixed order) that is not the donor and whose spare space covers the
donor's whole volume. -/
theorem consolidateScan_eq_find (st : List Tank) (plan : List Move)
    (dn : String) (v : ℚ) (bl : String) (names : List String) :
    consolidateScan st plan dn v bl names =
      match names.find? (fun r => decide (r ≠ dn) &&
          decide (v ≤ ((st.find? (fun t => decide (t.name = r))).getD defaultTank).capacity
                    - ((st.find? (fun t => decide (t.name = r))).getD defaultTank).current_volume)) with
      | none => (st, plan)
      | some r => consolidateApply st plan dn v bl r := by
  induction names with
  | nil => simp [consolidateScan, List.find?]
  | cons r rest ih =>
    rw [consolidateScan]
    by_cases hdr : dn = r
    · rw [if_pos hdr, ih]
      simp [List.find?, hdr]
    · rw [if_neg hdr]
      by_cases hsp : v ≤ ((st.find? (fun t => decide (t.name = r))).getD defaultTank).capacity
          - ((st.find? (fun t => decide (t.name = r))).getD defaultTank).current_volume
      · simp only [hsp, if_pos]
        simp [List.find?, Ne.symm hdr, hsp]
      · simp only [hsp, if_neg]
        rw [ih]
        simp [List.find?, Ne.symm hdr, hsp]

theorem consolidateStep_eq (recipNames : List String) (acc : List Tank × List Move) (dn : String) :
    consolidateDonorStep recipNames acc dn = consolidateSpecStep recipNames acc dn := by
  unfold consolidateDonorStep consolidateSpecStep
  by_cases hv : ((acc.1.find? (fun t => decide (t.name = dn))).getD defaultTank).current_volume = 0
  · simp [hv]
  · simp only [hv, if_neg]
    rw [consolidateScan_eq_find]

/-- Claim C7 (amended): `consolidate_tanks_any_blend` processes donors
smallest-current-volume first, and each donor transfers its ENTIRE volume
into the first recipient — taken in DESCENDING order of spare capacity — that
is not the donor itself and whose spare space covers the donor's whole
volume; a donor that fits nowhere is skipped (no partial transfers, at most
one recipient per donor).  Stated as equality with `consolidateSpec`, the
direct transcription of that policy. -/
theorem C7_amended (tanks : List Tank) :
    consolidate_tanks_any_blend tanks = consolidateSpec tanks := by
  unfold consolidate_tanks_any_blend consolidateSpec
  apply List.foldl_ext
  intro acc dn _
  exact consolidateStep_eq _ acc dn

theorem updateBest_attempts (st : LoopState) (a : Bool) (n m : ℕ) (p : List Move) :
    (updateBest st a n m p).attempts = st.attempts := by
  unfold updateBest
  split <;> rfl

theorem attemptRest_attempts (ctx : PreCtx) (st : LoopState) (se tr : List Tank)
    (p0 : List Move) : (attemptRest ctx st se tr p0).attempts = st.attempts + 1 := by
  unfold attemptRest
  simp [updateBest_attempts]

theorem attemptBody_attempts (o : RandOracle) (ctx : PreCtx) (st st' : LoopState) (a : ℕ)
    (h : attemptBody o ctx st a = Except.ok st') : st'.attempts = st.attempts + 1 := by
  unfold attemptBody at h
  dsimp only at h
  split at h
  · split at h
    · exact absurd h (by simp)
    · cases h
      rw [attemptRest_attempts]
  · cases h
    rw [attemptRest_attempts]

theorem foldlM_attemptBody_attempts (o : RandOracle) (ctx : PreCtx) (l : List ℕ)
    (st st' : LoopState) (h : l.foldlM (attemptBody o ctx) st = Except.ok st') :
    st'.attempts = st.attempts + l.length := by
  induction l generalizing st with
  | nil =>
    simp only [List.foldlM] at h
    cases h
    simp
  | cons a as ih =>
    rw [List.foldlM_cons] at h
    cases hh : attemptBody o ctx st a with
    | error g =>
      rw [hh] at h
      simp [Bind.bind, Except.bind] at h
    | ok mid =>
      rw [hh] at h
      have h2 : as.foldlM (attemptBody o ctx) mid = Except.ok st' := h
      rw [ih mid h2, attemptBody_attempts o ctx st mid a hh]
      simp
      omega

/-- Claim C6 (amended): the selector retains, among accepted trials, the one
with the fewest tanks ending with wine, breaking ties by fewest transfer
operations (`updateBest` replaces the best exactly on a lexicographic
improvement); there is NO early stop — every run that does not crash executes
all 100 attempts; and the planner reports `'Blending not possible'` exactly
when no trial was accepted OR the best accepted plan contains no transfer
operations. -/
theorem C6_amended :
    (∀ (st : LoopState) (accepted : Bool) (n m : ℕ) (plan : List Move),
        updateBest st accepted n m plan =
          if accepted = true ∧ (ltOpt n st.bestNumTanks = true ∨
              (st.bestNumTanks = some n ∧ ltOpt m st.bestNumTransfers = true)) then
            { st with best := some plan, bestNumTanks := some n, bestNumTransfers := some m }
          else st) ∧
    (∀ (o : RandOracle) (ctx : PreCtx) (st : LoopState),
        runAttempts o ctx = Except.ok st → st.attempts = 100) ∧
    (∀ (ctx : PreCtx) (st : LoopState),
        finalize ctx st = PlanResult.blendingNotPossible ↔
          (st.best = none ∨ st.best = some [])) := by
  refine ⟨?_, ?_, ?_⟩
  · intro st accepted n m plan
    have hcond : (accepted && leOpt n st.bestNumTanks &&
        (ltOpt n st.bestNumTanks || ltOpt m st.bestNumTransfers)) = true ↔
        (accepted = true ∧ (ltOpt n st.bestNumTanks = true ∨
          (st.bestNumTanks = some n ∧ ltOpt m st.bestNumTransfers = true))) := by
      cases accepted <;> cases hbn : st.bestNumTanks <;> cases hbt : st.bestNumTransfers <;>
          simp [ltOpt, leOpt] <;> omega
    unfold updateBest
    exact if_congr hcond rfl rfl
  · intro o ctx st h
    unfold runAttempts at h
    have := foldlM_attemptBody_attempts o ctx (List.range 100) _ st h
    simpa using this
  · intro ctx st
    unfold finalize
    cases hb : st.best with
    | none => simp
    | some plan => cases plan <;> simp

set_option maxRecDepth 40000 in
/-- Witness for C6's amended theorem: applied at the empty loop context,
whose 100-attempt run finishes with an accepted empty plan. -/
theorem C6_amended_witness :
    runAttempts idOracle trivialCtx =
      Except.ok { best := some [], bestNumTanks := some 0, bestNumTransfers := some 0,
                  globalTanks := [], attempts := 100 } ∧
    ({ best := some [], bestNumTanks := some 0, bestNumTransfers := some 0,
       globalTanks := [], attempts := 100 } : LoopState).attempts = 100 :=
  ⟨by decide, C6_amended.2.1 idOracle trivialCtx _ (by decide)⟩

theorem foldl_fixed {α β : Type} (f : β → α → β) (l : List α) (z : β)
    (h : ∀ acc : β, ∀ t ∈ l, f acc t = acc) : l.foldl f z = z := by
  induction l generalizing z with
  | nil => rfl
  | cons a as ih =>
    rw [List.foldl_cons, h z a (List.mem_cons_self a as)]
    exact ih z (fun acc t ht => h acc t (List.mem_cons_of_mem _ ht))

theorem computeBlendTotals_empty (tanks : List Tank)
    (hblend : ∀ t ∈ tanks, 0 < t.current_volume → t.blend = "") :
    computeBlendTotals tanks = ([], 0) := by
  unfold computeBlendTotals
  apply foldl_fixed
  intro acc t ht
  by_cases hv : 0 < t.current_volume
  · simp [hblend t ht hv, normalize_blend]
  · simp [hv]

theorem init_bd_all_empty (tanks : List Tank)
    (hbd : ∀ t ∈ tanks, t.blend_breakdown = none)
    (hblend : ∀ t ∈ tanks, 0 < t.current_volume → t.blend = "") :
    init_blend_breakdown tanks
      = tanks.map (fun t => {t with blend_breakdown := some []}) := by
  unfold init_blend_breakdown
  apply List.map_congr_left
  intro t ht
  rw [if_pos (Or.inl (hbd t ht))]
  rw [if_neg (fun hc => hc.1 (hblend t ht hc.2))]

theorem mem_insertAscBy {key : Tank → ℚ} {x y : Tank} {l : List Tank} :
    y ∈ insertAscBy key x l ↔ y = x ∨ y ∈ l := by
  induction l with
  | nil => simp [insertAscBy]
  | cons a as ih =>
    rw [insertAscBy]
    split
    · simp
    · simp only [List.mem_cons, ih]
      tauto

theorem mem_sortAscBy {key : Tank → ℚ} {y : Tank} {l : List Tank} :
    y ∈ sortAscBy key l ↔ y ∈ l := by
  induction l with
  | nil => simp [sortAscBy]
  | cons a as ih =>
    show y ∈ insertAscBy key a (sortAscBy key as) ↔ _
    rw [mem_insertAscBy, ih]
    simp

theorem mem_sortDescBy {key : Tank → ℚ} {y : Tank} {l : List Tank} :
    y ∈ sortDescBy key l ↔ y ∈ l := mem_sortAscBy

theorem blending_true_of_bd_empty (l : List Tank) (gbp : List (String × ℚ)) (tol : ℚ)
    (h : ∀ t ∈ l, t.blend_breakdown = some []) :
    blending_is_not_needed l gbp tol = true := by
  unfold blending_is_not_needed
  by_cases hlen : (l.filter (fun t => decide (0 < t.current_volume))).length = 1
  · simp [hlen]
  · rw [if_neg hlen]
    apply List.all_eq_true.mpr
    intro t ht
    have hmem := (List.mem_filter.mp ht).1
    unfold tank_matches_blend
    simp [h t hmem]

theorem plan_pre_noLabel (tanks : List Tank)
    (hbd : ∀ t ∈ tanks, t.blend_breakdown = none)
    (hcap : ∀ t ∈ tanks, 0 ≤ t.capacity)
    (hblend : ∀ t ∈ tanks, 0 < t.current_volume → t.blend = "") :
    plan_pre tanks = .early (.consolidationOnly [] 0) := by
  have htot := computeBlendTotals_empty tanks hblend
  have hinit := init_bd_all_empty tanks hbd hblend
  have hWbd : ∀ t ∈ tanks.map (fun t => {t with blend_breakdown := some []}),
      t.blend_breakdown = some [] := by
    intro t ht
    obtain ⟨s, hs, rfl⟩ := List.mem_map.mp ht
    rfl
  have hWcap : ∀ t ∈ tanks.map (fun t => {t with blend_breakdown := some []}),
      0 ≤ t.capacity := by
    intro t ht
    obtain ⟨s, hs, rfl⟩ := List.mem_map.mp ht
    exact hcap s hs
  obtain ⟨W2, hout, hW2bd⟩ :
      ∃ W2, consolidationOutcome
          (tanks.map (fun t => {t with blend_breakdown := some []}))
          (sortDescBy (fun t => t.capacity)
            ((tanks.map (fun t => {t with blend_breakdown := some []})).filter
              (fun t => t.is_empty || decide (t.current_volume = 0)))) [] 0
        = Except.ok (W2, []) ∧ ∀ t ∈ W2, t.blend_breakdown = some [] := by
    cases hEe : sortDescBy (fun t => t.capacity)
        ((tanks.map (fun t => {t with blend_breakdown := some []})).filter
          (fun t => t.is_empty || decide (t.current_volume = 0))) with
    | nil =>
      refine ⟨tanks.map (fun t => {t with blend_breakdown := some []}), ?_, hWbd⟩
      unfold consolidationOutcome
      rfl
    | cons e0 rest =>
      have he0cap : 0 ≤ e0.capacity := by
        have hm : e0 ∈ sortDescBy (fun t => t.capacity)
            ((tanks.map (fun t => {t with blend_breakdown := some []})).filter
              (fun t => t.is_empty || decide (t.current_volume = 0))) := by
          rw [hEe]; exact List.mem_cons_self _ _
        exact hWcap _ (List.mem_filter.mp (mem_sortDescBy.mp hm)).1
      have hdec : consolidation_decide (e0 :: rest) 0 = some [(e0.name, 0)] := by
        unfold consolidation_decide
        dsimp only
        rw [if_pos he0cap]
      refine ⟨((tanks.map (fun t => {t with blend_breakdown := some []})).map
          (fun t => if t.name = e0.name then
            {t with is_empty := false, current_volume := 0, blend_breakdown := some []}
          else t)).map
          (fun t => if [(e0.name, (0:ℚ))].any (fun e => decide (e.1 = t.name)) then t
            else {t with is_empty := true, current_volume := 0, blend_breakdown := some []}),
        ?_, ?_⟩
      · unfold consolidationOutcome
        rw [hdec]
        dsimp only
        rw [if_neg (List.cons_ne_nil _ _)]
        rfl
      · intro t ht
        obtain ⟨s, hs, rfl⟩ := List.mem_map.mp ht
        obtain ⟨u, hu, rfl⟩ := List.mem_map.mp hs
        have hub := hWbd u hu
        by_cases h1 : u.name = e0.name
        · simp [h1]
        · simp [h1, Ne.symm h1, hub]
  have hround : round4 0 = 0 := by norm_num [round4]
  unfold plan_pre
  rw [htot, hinit]
  dsimp only
  simp only [List.map_nil]
  rw [hout]
  dsimp only
  rw [blending_true_of_bd_empty W2 [] 2 hW2bd, hround]
  simp

/-- Claim C8 (amended): when no tank holds positive-volume wine with a
non-empty blend label (and the snapshot is app-shaped: no precomputed
breakdowns, non-negative capacities), `generate_blend_plan` attempts no
randomized trial, but it does NOT surface a NoVolume failure: it returns the
`'Consolidation completed; no further blending needed.'` success outcome with
an empty transfer plan and total 0, leaving the global list untouched. -/
theorem C8_amended (tanks : List Tank) (o : RandOracle)
    (hbd : ∀ t ∈ tanks, t.blend_breakdown = none)
    (hcap : ∀ t ∈ tanks, 0 ≤ t.capacity)
    (hblend : ∀ t ∈ tanks, 0 < t.current_volume → t.blend = "") :
    generate_blend_plan tanks o = (PlanResult.consolidationOnly [] 0, tanks) := by
  unfold generate_blend_plan
  rw [plan_pre_noLabel tanks hbd hcap hblend]

/-- Witness for C8's amended theorem: the hypotheses hold on a concrete
unlabelled snapshot, and the theorem applies there. -/
theorem C8_amended_witness :
    (∀ t ∈ c8witnessTanks, t.blend_breakdown = none) ∧
    generate_blend_plan c8witnessTanks idOracle
      = (PlanResult.consolidationOnly [] 0, c8witnessTanks) :=
  ⟨by decide, C8_amended c8witnessTanks idOracle (by decide) (by decide) (by decide)⟩
